import Mathlib

/-!
Shallow embedding of the data-normalization and reconciliation core of the
movie-log application (`src/streamlit_app.py`, `src/movie_db_streamlit.py`).

Conventions of the embedding:
* Python floats on the 0-10 rating scale are modelled as `ℚ` (the operations
  involved — division and multiplication by 2 and `math.floor` — are exact on
  binary floats over this range, so `ℚ` is faithful there).
* A missing value (Python `None`, pandas `NaN`/`NaT`) is modelled as
  `Option.none`.
* A pandas DataFrame of film rows is modelled as a `List Row` in row order.
* Python string primitives (`str.strip`, `str.lower`, single-character
  `str.replace`, substring `in`) are modelled over `List Char`
  (`pyStrip`, `pyLower`, `sanitizeField`, `pyContains` below) so that they
  compute inside the kernel.
-/

/-- Python `str.isspace` characters stripped by `str.strip()`. -/
def pyIsSpace (c : Char) : Bool :=
  c = ' ' || c = '\t' || c = '\n' || c = '\r' || c = '\x0b' || c = '\x0c'

/-- Python `str.strip()`: remove leading and trailing whitespace. -/
def pyStrip (s : String) : String :=
  ⟨((s.data.dropWhile pyIsSpace).reverse.dropWhile pyIsSpace).reverse⟩

/-- Python `str.lower()` (ASCII case folding, which covers the data involved). -/
def pyLower (s : String) : String :=
  ⟨s.data.map Char.toLower⟩

/-- Python substring test `pat in hay`. -/
def pyContains (hay pat : String) : Bool :=
  decide (pat.data <:+: hay.data)

/-- One row of the base film table, in the shape produced by the bulk-import
preparation (`_prepare_rows`) and by the manual-add form of `show_add_film`
(`src/streamlit_app.py`). `year` and `duration` hold the
`pd.to_numeric(..., errors='coerce')` result (`none` when unparsable);
`rating10` holds the numeric value of the `Rating 10` column (`none` when
unparsable; the textual comma-formatted rendering of this column is not
needed by any claim and is not modelled); the remaining fields are stored
text. -/
structure Row where
  name : String
  year : Option Int
  rating : String
  rating10 : Option ℚ
  duration : Option Int
  director : String
  watchedDate : String
  tagDiario : String
  greatness : Int
  top : String
deriving DecidableEq

/-- Embeds `_simplify_rating_10` (src/streamlit_app.py, lines 1237-1242):
`None`/`NaN` input returns `None`; otherwise `half = r10 / 2.0` and the
result is `floor(half * 2) / 2.0`. -/
def _simplify_rating_10 (r10 : Option ℚ) : Option ℚ :=
  match r10 with
  | none => none
  | some r =>
    let half := r / 2
    some ((⌊half * 2⌋ : ℚ) / 2)

/-- Embeds the inner helper `_simp` of `_prepare_rows`
(src/streamlit_app.py, lines 1354-1357): `NaN` returns `None`, otherwise
`floor((x/2.0)*2)/2.0`. -/
def _simp (x : Option ℚ) : Option ℚ :=
  match x with
  | none => none
  | some v => some ((⌊(v / 2) * 2⌋ : ℚ) / 2)

/-- Embeds `_fmt_simplified` (src/streamlit_app.py, lines 1244-1250) on the
non-negative half-point rationals that `_simplify_rating_10` produces:
missing prints as `""`, an integer value prints via `str(int(val))`, and a
half-integer value `k + 0.5` prints via `str(val).replace('.', ',')`,
i.e. `"k,5"`. (The inner `_fmt` of `_prepare_rows` has the same logic.) -/
def _fmt_simplified (val : Option ℚ) : String :=
  match val with
  | none => ""
  | some v => if v.den = 1 then toString v.num else toString (⌊v⌋ : Int) ++ ",5"

/-- The sanitization `_append_film_row` applies to every serialized cell
(src/streamlit_app.py, lines 1267-1268): newlines and carriage returns
become spaces, semicolons become commas.  All three patterns are single
characters, so the chain of `str.replace` calls is a character map. -/
def sanitizeChar (c : Char) : Char :=
  if c = '\n' ∨ c = '\r' then ' ' else if c = ';' then ',' else c

/-- Field-level sanitization of `_append_film_row`. -/
def sanitizeField (s : String) : String :=
  ⟨s.data.map sanitizeChar⟩

/-- The reconciliation key built by `kbuild` in `show_add_film`
(src/streamlit_app.py, lines 1399-1407): Python formats
`lowercase(strip(Name)) + "|" + year_or_None` into one string; since the
year part never contains `"|"`, that string determines and is determined by
the pair (lowercased stripped name, optional year), which is how it is
modelled here. -/
def rowKey (r : Row) : String × Option Int :=
  (pyLower (pyStrip r.name), r.year)

/-- The three bulk-import duplicate policies of `show_add_film`
("Salta" = skip, "Sovrascrivi" = overwrite, "Permetti duplicati" = allow
duplicates). -/
inductive DupPolicy
  | skip
  | overwrite
  | allowDuplicates
deriving DecidableEq

/-- The counters reported by the bulk import ("Aggiunti / Aggiornati /
Saltati"). -/
structure ImportReport where
  added : Nat
  updated : Nat
  skipped : Nat
deriving DecidableEq

/-- Embeds the confirmed-import merge of `show_add_film`
(src/streamlit_app.py, lines 1394-1427): when the base table is empty the
prepared batch becomes the whole output; otherwise the selected duplicate
policy runs.  `Permetti duplicati` concatenates; `Sovrascrivi` removes base
rows whose key occurs in the batch, then appends the whole batch, counting
batch rows whose key already existed as updated; `Salta` keeps the base and
appends only batch rows whose key is new, counting the rest as skipped. -/
def bulkImport (base prep : List Row) (policy : DupPolicy) : List Row × ImportReport :=
  if base.isEmpty then
    (prep, { added := prep.length, updated := 0, skipped := 0 })
  else
    match policy with
    | DupPolicy.allowDuplicates =>
      (base ++ prep, { added := prep.length, updated := 0, skipped := 0 })
    | DupPolicy.overwrite =>
      let existingKeys := base.map rowKey
      let prepKeys := prep.map rowKey
      let kept := base.filter (fun r => decide (rowKey r ∉ prepKeys))
      let upd := (prep.filter (fun r => decide (rowKey r ∈ existingKeys))).length
      (kept ++ prep, { added := prep.length - upd, updated := upd, skipped := 0 })
    | DupPolicy.skip =>
      let existingKeys := base.map rowKey
      let toAdd := prep.filter (fun r => decide (rowKey r ∉ existingKeys))
      (base ++ toAdd, { added := toAdd.length, updated := 0, skipped := prep.length - toAdd.length })

/-- Outcome of one manual-add form submission in `show_add_film`:
the empty-title error, the duplicate warning, or a successful save. -/
inductive ManualOutcome
  | emptyTitle
  | duplicateWarning
  | saved
deriving DecidableEq

/-- The row dict built by the manual-add submit handler
(src/streamlit_app.py, lines 1536-1548): stripped title, integer year,
simplified rating text, numeric rating, duration, stripped director, watch
date text (already `strftime`-formatted or empty), stripped diary tag,
greatness flag from `rating10 >= 7.5`, empty Top. -/
def buildManualRow (name : String) (year : Int) (rating10 : ℚ) (duration : Int)
    (director wd tag : String) : Row :=
  { name := pyStrip name
    year := some year
    rating := _fmt_simplified (_simplify_rating_10 (some rating10))
    rating10 := some rating10
    duration := some duration
    director := pyStrip director
    watchedDate := wd
    tagDiario := pyStrip tag
    greatness := if 7.5 ≤ rating10 then 1 else 0
    top := "" }

/-- Embeds `_append_film_row` (src/streamlit_app.py, lines 1252-1271): the
row is serialized in header order with every cell's text sanitized
(`sanitizeField`) and appended as one line.  Numeric cells (`year`,
`rating10`, `duration`, `greatness`) print without the sanitized characters,
so sanitization touches only the text fields. -/
def _append_film_row (base : List Row) (r : Row) : List Row :=
  base ++ [{ r with
    name := sanitizeField r.name
    rating := sanitizeField r.rating
    director := sanitizeField r.director
    watchedDate := sanitizeField r.watchedDate
    tagDiario := sanitizeField r.tagDiario
    top := sanitizeField r.top }]

/-- Embeds the manual-add submit handler of `show_add_film`
(src/streamlit_app.py, lines 1514-1553): an empty stripped title is an
error; otherwise, when the base is non-empty and the allow-duplicate box is
unchecked, a row with the same lowercased stripped title and the same year
triggers the duplicate warning and nothing is written; otherwise the built
row is appended via `_append_film_row`. -/
def manualAddSubmit (base : List Row) (name : String) (year : Int) (rating10 : ℚ)
    (duration : Int) (director wd tag : String) (allowDuplicate : Bool) :
    ManualOutcome × List Row :=
  if pyStrip name = "" then (ManualOutcome.emptyTitle, base)
  else
    let dup :=
      if !base.isEmpty && !allowDuplicate then
        base.any (fun r =>
          pyLower (pyStrip r.name) == pyLower (pyStrip name) && r.year == some year)
      else false
    if dup then (ManualOutcome.duplicateWarning, base)
    else (ManualOutcome.saved,
      _append_film_row base (buildManualRow name year rating10 duration director wd tag))

/-- One uploaded row as `_prepare_rows` receives it after `_normalize_cols`:
text cells are `Option String` (`none` for a pandas `NaN`), `year` and
`duration` already carry their `pd.to_numeric(..., errors='coerce')` result,
`rating10` the numeric value parsed from the `Rating 10` cell, and
`watchedDate` the already-formatted `dd/mm/YYYY` text of the parsed date. -/
structure RawRow where
  name : Option String
  year : Option Int
  rating10 : Option ℚ
  duration : Option Int
  director : Option String
  watchedDate : String
  tagDiario : Option String
deriving DecidableEq

/-- Pandas `Series.astype(str)` on a text cell: a `NaN` cell becomes the
literal string `"nan"`. -/
def pdAstypeStr : Option String → String
  | none => "nan"
  | some s => s

/-- Embeds the per-row work of `_prepare_rows` (src/streamlit_app.py,
lines 1346-1380).  Note the order on the text columns: `astype(str)` runs
before `.fillna('')`, so after the string conversion no missing value
remains and the `fillna` is a no-op — a `NaN` Director or Tag Diario cell
becomes the text `"nan"`.  `Greatness` is `(r10 >= 7.5).astype(int)` where
the comparison with `NaN` is `False`. -/
def _prepare_row (raw : RawRow) : Row :=
  { name := pyStrip (pdAstypeStr raw.name)
    year := raw.year
    rating := _fmt_simplified (_simp raw.rating10)
    rating10 := raw.rating10
    duration := raw.duration
    director := pyStrip (pdAstypeStr raw.director)
    watchedDate := raw.watchedDate
    tagDiario := pyStrip (pdAstypeStr raw.tagDiario)
    greatness :=
      match raw.rating10 with
      | some v => if 7.5 ≤ v then 1 else 0
      | none => 0
    top := "" }

/-- Embeds `_prepare_rows` as the row-wise map of `_prepare_row`. -/
def _prepare_rows (raws : List RawRow) : List Row :=
  raws.map _prepare_row

/-- The alias table of `normalize_director_name`
(src/streamlit_app.py, lines 491-498; src/movie_db_streamlit.py,
lines 297-304), in its source order. -/
def collaborations : List (String × String) :=
  [("joel coen", "Joel & Ethan Coen"),
   ("ethan coen", "Joel & Ethan Coen"),
   ("joel & ethan coen", "Joel & Ethan Coen"),
   ("ethan & joel coen", "Joel & Ethan Coen"),
   ("coen brothers", "Joel & Ethan Coen"),
   ("fratelli coen", "Joel & Ethan Coen")]

/-- Embeds `normalize_director_name` (src/streamlit_app.py, lines 486-506):
missing or empty input maps to the sentinel; otherwise the stripped input is
lowercased and the first alias phrase contained in it as a substring selects
its canonical label; with no match the stripped input is returned. -/
def normalize_director_name (director : Option String) : String :=
  match director with
  | none => "Sconosciuto"
  | some d =>
    if d = "" then "Sconosciuto"
    else
      let ds := pyStrip d
      let dl := pyLower ds
      match collaborations.find? (fun kv => pyContains dl kv.1) with
      | some kv => kv.2
      | none => ds

/-- Embeds the mean-rating statistic of `show_dashboard`
(src/streamlit_app.py, lines 240-259; src/movie_db_streamlit.py,
lines 111-130): rows with a missing `Rating_Clean` are dropped, and the mean
of the remainder is reported — or the number 0 when no row remains. -/
def dashboardAvgRating (ratings : List (Option ℚ)) : ℚ :=
  let valid := ratings.filterMap id
  if 0 < valid.length then valid.sum / (valid.length : ℚ) else 0

/-- Concrete base row A@1999 used by the merge witnesses. -/
def rowA : Row :=
  { name := "A", year := some 1999, rating := "4", rating10 := none
    duration := some 100, director := "Original Director"
    watchedDate := "01/01/2020", tagDiario := "cinema", greatness := 1, top := "" }

/-- The incoming version of A@1999 with changed fields. -/
def rowA2 : Row :=
  { rowA with rating := "3", director := "Changed Director", tagDiario := "" }

/-- Concrete incoming row B@2020 with a new key. -/
def rowB : Row :=
  { name := "B", year := some 2020, rating := "", rating10 := none
    duration := some 90, director := "Other Director"
    watchedDate := "", tagDiario := "", greatness := 0, top := "" }

/-- An uploaded row whose Name cell is the empty string. -/
def rawEmptyTitle : RawRow :=
  { name := some "", year := some 2020, rating10 := none, duration := some 95
    director := some "Someone", watchedDate := "01/01/2020", tagDiario := some "" }

/-- An uploaded row whose Director and Tag Diario cells are missing. -/
def rawMissingCells : RawRow :=
  { name := some "Film X", year := some 2001, rating10 := none, duration := none
    director := none, watchedDate := "", tagDiario := none }

/-- Filtering a list by a predicate and by its negation partitions it. -/
theorem length_filter_add_length_filter_not {α : Type*} (l : List α) (p : α → Bool) :
    (l.filter p).length + (l.filter (fun a => !(p a))).length = l.length := by
  induction l with
  | nil => rfl
  | cons a t ih =>
    cases hpa : p a <;> simp [List.filter_cons, hpa] <;> omega

/-- C1: for every raw rating r in [0,10], both rating simplifiers return
floor((r/2)*2)/2, and the result is a multiple of 0.5 in [0,5]. -/
theorem rating_simplifier_floor_formula (r : ℚ) (h0 : 0 ≤ r) (h10 : r ≤ 10) :
    _simplify_rating_10 (some r) = some ((⌊(r / 2) * 2⌋ : ℚ) / 2)
    ∧ _simp (some r) = some ((⌊(r / 2) * 2⌋ : ℚ) / 2)
    ∧ ∃ k : ℕ, k ≤ 10 ∧ (⌊(r / 2) * 2⌋ : ℚ) / 2 = (k : ℚ) / 2
      ∧ 0 ≤ (⌊(r / 2) * 2⌋ : ℚ) / 2 ∧ (⌊(r / 2) * 2⌋ : ℚ) / 2 ≤ 5 := by
  have hr : (r / 2) * 2 = r := div_mul_cancel₀ r two_ne_zero
  have hfl : (0 : ℤ) ≤ ⌊r⌋ := Int.floor_nonneg.mpr h0
  have hfu : ⌊r⌋ ≤ 10 := by
    have h := Int.floor_le_floor h10
    simpa using h
  refine ⟨rfl, rfl, ⟨⌊r⌋.toNat, ?_, ?_, ?_, ?_⟩⟩
  · omega
  · rw [hr]
    congr 1
    exact_mod_cast (Int.toNat_of_nonneg hfl).symm
  · rw [hr]
    have : (0 : ℚ) ≤ (⌊r⌋ : ℚ) := by exact_mod_cast hfl
    linarith
  · rw [hr]
    have : ((⌊r⌋ : ℚ)) ≤ 10 := by exact_mod_cast hfu
    linarith

/-- C1 witness at the boundary values: simplify(8) = 4, simplify(7.9) = 3.5,
simplify(0) = 0, on both code paths. -/
theorem rating_simplifier_floor_formula_witness :
    (0 ≤ (8 : ℚ) ∧ (8 : ℚ) ≤ 10
      ∧ _simplify_rating_10 (some 8) = some 4 ∧ _simp (some 8) = some 4)
    ∧ _simplify_rating_10 (some (79 / 10)) = some (7 / 2)
    ∧ _simplify_rating_10 (some 0) = some 0 := by
  have h8 := rating_simplifier_floor_formula 8 (by norm_num) (by norm_num)
  have h79 := rating_simplifier_floor_formula (79 / 10) (by norm_num) (by norm_num)
  have h0 := rating_simplifier_floor_formula 0 (by norm_num) (by norm_num)
  refine ⟨⟨by norm_num, by norm_num, h8.1.trans ?_, h8.2.1.trans ?_⟩,
    h79.1.trans ?_, h0.1.trans ?_⟩
  · norm_num
  · norm_num
  · norm_num
  · norm_num

/-- C2: a missing raw rating yields a missing simplified rating (never 0) on
both the manual-add path and the bulk-import path. -/
theorem rating_simplifier_missing_propagates :
    _simplify_rating_10 none = none ∧ _simp none = none
    ∧ _simplify_rating_10 none ≠ some 0 ∧ _simp none ≠ some 0 :=
  ⟨rfl, rfl, by simp [_simplify_rating_10], by simp [_simp]⟩

/-- C3: with a non-empty base, the Skip policy keeps every existing row
unchanged, appends exactly the incoming rows whose key is new, and reports
added = number of incoming rows with a new key and skipped = number of
incoming rows whose key already exists. -/
theorem bulk_import_skip_policy (base prep : List Row) (h : base ≠ []) :
    (bulkImport base prep DupPolicy.skip).1
      = base ++ prep.filter (fun r => decide (rowKey r ∉ base.map rowKey))
    ∧ (bulkImport base prep DupPolicy.skip).2.added
      = (prep.filter (fun r => decide (rowKey r ∉ base.map rowKey))).length
    ∧ (bulkImport base prep DupPolicy.skip).2.skipped
      = (prep.filter (fun r => decide (rowKey r ∈ base.map rowKey))).length := by
  cases base with
  | nil => exact absurd rfl h
  | cons a t =>
    refine ⟨rfl, rfl, ?_⟩
    show prep.length
        - (prep.filter (fun r => decide (rowKey r ∉ (a :: t).map rowKey))).length
      = (prep.filter (fun r => decide (rowKey r ∈ (a :: t).map rowKey))).length
    simp only [decide_not]
    have hp := length_filter_add_length_filter_not prep
      (fun r => decide (rowKey r ∈ (a :: t).map rowKey))
    omega

/-- C3 witness: base = [A@1999], incoming = [A@1999 changed, B@2020] gives
result [A@1999 original, B@2020] with added = 1, skipped = 1. -/
theorem bulk_import_skip_policy_witness :
    ([rowA] ≠ []) ∧
    (bulkImport [rowA] [rowA2, rowB] DupPolicy.skip).1 = [rowA, rowB] ∧
    (bulkImport [rowA] [rowA2, rowB] DupPolicy.skip).2.added = 1 ∧
    (bulkImport [rowA] [rowA2, rowB] DupPolicy.skip).2.skipped = 1 :=
  have h := bulk_import_skip_policy [rowA] [rowA2, rowB] (by decide)
  ⟨by decide, h.1.trans (by decide), (h.2.1).trans (by decide), (h.2.2).trans (by decide)⟩

/-- C4: with a non-empty base, the Overwrite policy removes every base row
whose key occurs in the incoming batch, appends the whole incoming batch,
and reports updated = number of incoming rows whose key already existed and
added = number of incoming rows with a new key. -/
theorem bulk_import_overwrite_policy (base prep : List Row) (h : base ≠ []) :
    (bulkImport base prep DupPolicy.overwrite).1
      = base.filter (fun r => decide (rowKey r ∉ prep.map rowKey)) ++ prep
    ∧ (bulkImport base prep DupPolicy.overwrite).2.updated
      = (prep.filter (fun r => decide (rowKey r ∈ base.map rowKey))).length
    ∧ (bulkImport base prep DupPolicy.overwrite).2.added
      = (prep.filter (fun r => decide (rowKey r ∉ base.map rowKey))).length := by
  cases base with
  | nil => exact absurd rfl h
  | cons a t =>
    refine ⟨rfl, rfl, ?_⟩
    show prep.length
        - (prep.filter (fun r => decide (rowKey r ∈ (a :: t).map rowKey))).length
      = (prep.filter (fun r => decide (rowKey r ∉ (a :: t).map rowKey))).length
    simp only [decide_not]
    have hp := length_filter_add_length_filter_not prep
      (fun r => decide (rowKey r ∈ (a :: t).map rowKey))
    omega

/-- C4 witness: base = [A@1999], incoming = [A@1999 changed, B@2020] gives
result [A@1999 new fields, B@2020] with added = 1, updated = 1. -/
theorem bulk_import_overwrite_policy_witness :
    ([rowA] ≠ []) ∧
    (bulkImport [rowA] [rowA2, rowB] DupPolicy.overwrite).1 = [rowA2, rowB] ∧
    (bulkImport [rowA] [rowA2, rowB] DupPolicy.overwrite).2.added = 1 ∧
    (bulkImport [rowA] [rowA2, rowB] DupPolicy.overwrite).2.updated = 1 :=
  have h := bulk_import_overwrite_policy [rowA] [rowA2, rowB] (by decide)
  ⟨by decide, h.1.trans (by decide), (h.2.2).trans (by decide), (h.2.1).trans (by decide)⟩

/-- C5: under both the Skip and the Overwrite policy, the merge result
splits as untouched-existing rows followed by appended rows: the first part
is a sublist of the base (original rows, original order) containing every
base row whose key is absent from the incoming key-set, and the second part
is a sublist of the incoming batch (original order). -/
theorem bulk_import_frame_preservation (base prep : List Row) :
    (∃ E N, (bulkImport base prep DupPolicy.skip).1 = E ++ N
      ∧ E.Sublist base ∧ N.Sublist prep
      ∧ (base.filter (fun r => decide (rowKey r ∉ prep.map rowKey))).Sublist E)
    ∧ (∃ E N, (bulkImport base prep DupPolicy.overwrite).1 = E ++ N
      ∧ E.Sublist base ∧ N.Sublist prep
      ∧ (base.filter (fun r => decide (rowKey r ∉ prep.map rowKey))).Sublist E) := by
  cases base with
  | nil =>
    refine ⟨⟨[], prep, rfl, List.nil_sublist _, List.Sublist.refl _, ?_⟩,
      ⟨[], prep, rfl, List.nil_sublist _, List.Sublist.refl _, ?_⟩⟩
    · simp
    · simp
  | cons a t =>
    constructor
    · exact ⟨a :: t,
        List.filter (fun r => decide (rowKey r ∉ (a :: t).map rowKey)) prep,
        rfl, List.Sublist.refl _, List.filter_sublist _, List.filter_sublist _⟩
    · exact ⟨(a :: t).filter (fun r => decide (rowKey r ∉ prep.map rowKey)), prep,
        rfl, List.filter_sublist _, List.Sublist.refl _, List.Sublist.refl _⟩

/-- C6: when the base contains a row with the submitted (lowercased stripped
title, year) key, submitting without the allow-duplicate flag yields the
distinct duplicate-warning outcome and leaves the base unchanged, while
submitting with the flag yields the saved outcome and appends the built row;
when the submitted title is already stripped and free of the characters the
CSV writer rewrites, the stored table then holds one more row with that key,
hence at least two. -/
theorem manual_add_duplicate_policy
    (base : List Row) (name : String) (year : Int) (rating10 : ℚ) (duration : Int)
    (director wd tag : String)
    (hname : pyStrip name ≠ "")
    (hdup : ∃ r ∈ base,
      pyLower (pyStrip r.name) = pyLower (pyStrip name) ∧ r.year = some year) :
    manualAddSubmit base name year rating10 duration director wd tag false
      = (ManualOutcome.duplicateWarning, base)
    ∧ (manualAddSubmit base name year rating10 duration director wd tag true).1
      = ManualOutcome.saved
    ∧ (manualAddSubmit base name year rating10 duration director wd tag true).2
      = _append_film_row base (buildManualRow name year rating10 duration director wd tag)
    ∧ (pyStrip name = name → sanitizeField name = name →
        (manualAddSubmit base name year rating10 duration director wd tag true).2.countP
          (fun r => pyLower (pyStrip r.name) == pyLower (pyStrip name)
            && r.year == some year)
        = base.countP
          (fun r => pyLower (pyStrip r.name) == pyLower (pyStrip name)
            && r.year == some year) + 1
        ∧ 2 ≤ (manualAddSubmit base name year rating10 duration director wd tag true).2.countP
          (fun r => pyLower (pyStrip r.name) == pyLower (pyStrip name)
            && r.year == some year)) := by
  obtain ⟨r0, hr0mem, hr0name, hr0year⟩ := hdup
  have hbne : base.isEmpty = false := by
    cases base with
    | nil => simp at hr0mem
    | cons a t => rfl
  have hpred : (pyLower (pyStrip r0.name) == pyLower (pyStrip name)
      && r0.year == some year) = true := by
    rw [Bool.and_eq_true, beq_iff_eq, beq_iff_eq]
    exact ⟨hr0name, hr0year⟩
  have hany : base.any (fun r =>
      pyLower (pyStrip r.name) == pyLower (pyStrip name) && r.year == some year) = true :=
    List.any_eq_true.mpr ⟨r0, hr0mem, hpred⟩
  have hwarn : manualAddSubmit base name year rating10 duration director wd tag false
      = (ManualOutcome.duplicateWarning, base) := by
    simp only [manualAddSubmit]
    rw [if_neg hname]
    simp [hbne, hany]
  have hsaved : manualAddSubmit base name year rating10 duration director wd tag true
      = (ManualOutcome.saved,
        _append_film_row base (buildManualRow name year rating10 duration director wd tag)) := by
    simp only [manualAddSubmit]
    rw [if_neg hname]
    simp
  refine ⟨hwarn, by rw [hsaved], by rw [hsaved], ?_⟩
  intro h1 h2
  have hcount : 0 < base.countP (fun r =>
      pyLower (pyStrip r.name) == pyLower (pyStrip name) && r.year == some year) :=
    List.countP_pos_iff.mpr ⟨r0, hr0mem, hpred⟩
  have happ : (manualAddSubmit base name year rating10 duration director wd tag true).2
      = base ++ [{ buildManualRow name year rating10 duration director wd tag with
          name := sanitizeField (pyStrip name)
          rating := sanitizeField (_fmt_simplified (_simplify_rating_10 (some rating10)))
          director := sanitizeField (pyStrip director)
          watchedDate := sanitizeField wd
          tagDiario := sanitizeField (pyStrip tag)
          top := sanitizeField "" }] := by
    rw [hsaved]
    rfl
  have hnew : (fun r => pyLower (pyStrip r.name) == pyLower (pyStrip name)
        && r.year == some year)
      ({ buildManualRow name year rating10 duration director wd tag with
          name := sanitizeField (pyStrip name)
          rating := sanitizeField (_fmt_simplified (_simplify_rating_10 (some rating10)))
          director := sanitizeField (pyStrip director)
          watchedDate := sanitizeField wd
          tagDiario := sanitizeField (pyStrip tag)
          top := sanitizeField "" } : Row) = true := by
    simp [buildManualRow, h1, h2]
  have hctotal : (manualAddSubmit base name year rating10 duration director wd tag true).2.countP
      (fun r => pyLower (pyStrip r.name) == pyLower (pyStrip name) && r.year == some year)
      = base.countP (fun r =>
          pyLower (pyStrip r.name) == pyLower (pyStrip name) && r.year == some year) + 1 := by
    rw [happ, List.countP_append]
    simp [List.countP_cons, hnew]
  exact ⟨hctotal, by omega⟩

/-- C6 witness: with base = [A@1999] and a submission titled "A" for 1999,
the flag-off submission is refused with the duplicate warning and the base
is unchanged, and the flag-on submission saves a second row with that key. -/
theorem manual_add_duplicate_policy_witness :
    pyStrip "A" ≠ ""
    ∧ (∃ r ∈ [rowA],
        pyLower (pyStrip r.name) = pyLower (pyStrip "A") ∧ r.year = some 1999)
    ∧ manualAddSubmit [rowA] "A" 1999 0 90 "" "" "" false
      = (ManualOutcome.duplicateWarning, [rowA])
    ∧ (manualAddSubmit [rowA] "A" 1999 0 90 "" "" "" true).1 = ManualOutcome.saved
    ∧ 2 ≤ (manualAddSubmit [rowA] "A" 1999 0 90 "" "" "" true).2.countP
        (fun r => pyLower (pyStrip r.name) == pyLower (pyStrip "A")
          && r.year == some 1999) :=
  have h := manual_add_duplicate_policy [rowA] "A" 1999 0 90 "" "" ""
    (by decide) (by decide)
  ⟨by decide, by decide, h.1, h.2.1, (h.2.2.2 (by decide) (by decide)).2⟩

/-- C7 counterexample: a bulk-imported row whose Name cell is the empty
string is not rejected — `_prepare_rows` performs no title validation — and
ends up stored in the base table with an empty title (here under the Skip
policy against the non-empty base [A@1999], reported as added). -/
theorem bulk_import_stores_empty_title :
    (bulkImport [rowA] (_prepare_rows [rawEmptyTitle]) DupPolicy.skip).1.map Row.name
      = ["A", ""]
    ∧ (bulkImport [rowA] (_prepare_rows [rawEmptyTitle]) DupPolicy.skip).2.added = 1 := by
  constructor
  · decide
  · decide

/-- C7 amended: only the manual-add path validates the title — a submission
whose stripped title is empty is rejected with the distinct empty-title
error and nothing is appended (the bulk-import path has no such check, see
the counterexample). -/
theorem manual_add_rejects_empty_title
    (base : List Row) (name : String) (year : Int) (rating10 : ℚ) (duration : Int)
    (director wd tag : String) (allowDuplicate : Bool)
    (h : pyStrip name = "") :
    manualAddSubmit base name year rating10 duration director wd tag allowDuplicate
      = (ManualOutcome.emptyTitle, base) := by
  simp only [manualAddSubmit]
  rw [if_pos h]

/-- C7 amended witness: a whitespace-only title is rejected and the base is
left unchanged. -/
theorem manual_add_rejects_empty_title_witness :
    pyStrip "   " = ""
    ∧ manualAddSubmit [rowA] "   " 2000 0 90 "" "" "" false
      = (ManualOutcome.emptyTitle, [rowA]) :=
  ⟨by decide, manual_add_rejects_empty_title [rowA] "   " 2000 0 90 "" "" "" false (by decide)⟩

/-- C8 counterexample: for a table whose rows all lack a parseable rating,
the dashboard mean is the concrete number 0 (rendered "0.00/10"), not an
undefined or missing value. -/
theorem dashboard_mean_zero_fallback :
    dashboardAvgRating [none, none] = 0 := by
  rfl

/-- C8 amended: the dashboard mean excludes missing ratings — it is the mean
of the parseable values when at least one exists — and silently falls back
to the number 0 when no row has a parseable rating (so no NaN is displayed,
but the empty case is reported as 0, not as missing). -/
theorem dashboard_mean_excludes_missing (rs : List (Option ℚ)) :
    (rs.filterMap id = [] → dashboardAvgRating rs = 0)
    ∧ (rs.filterMap id ≠ [] →
        dashboardAvgRating rs
          = (rs.filterMap id).sum / ((rs.filterMap id).length : ℚ)) := by
  constructor
  · intro h
    unfold dashboardAvgRating
    rw [h]
    rfl
  · intro h
    unfold dashboardAvgRating
    rw [if_pos (List.length_pos.mpr h)]

/-- C8 amended witness: with one parseable rating 8 and one missing rating
the reported mean is 8, the missing row being excluded. -/
theorem dashboard_mean_excludes_missing_witness :
    [some (8 : ℚ), none].filterMap id ≠ []
    ∧ dashboardAvgRating [some (8 : ℚ), none] = 8 :=
  ⟨by simp, by
    have h := (dashboard_mean_excludes_missing [some (8 : ℚ), none]).2 (by simp)
    rw [h]
    norm_num [List.filterMap_cons]⟩

/-- C9: any director string that contains one of the six Coen alias
spellings (case-insensitively, as a substring of the stripped lowercased
text) resolves to the single canonical label "Joel & Ethan Coen". -/
theorem normalize_director_coen_aliases (d : String)
    (h : ∃ kv ∈ collaborations, pyContains (pyLower (pyStrip d)) kv.1 = true) :
    normalize_director_name (some d) = "Joel & Ethan Coen" := by
  obtain ⟨kv, hmem, hsub⟩ := h
  have hd : d ≠ "" := by
    rintro rfl
    fin_cases hmem <;> exact absurd hsub (by decide)
  have hfind : (collaborations.find? (fun kv => pyContains (pyLower (pyStrip d)) kv.1)).isSome :=
    List.find?_isSome.mpr ⟨kv, hmem, hsub⟩
  obtain ⟨kv2, hkv2⟩ := Option.isSome_iff_exists.mp hfind
  have hval : kv2.2 = "Joel & Ethan Coen" := by
    have hm := List.mem_of_find?_eq_some hkv2
    fin_cases hm <;> rfl
  simp only [normalize_director_name]
  rw [if_neg hd, hkv2]
  exact hval

/-- C9 witness: the raw string " I Fratelli Coen " contains the alias
"fratelli coen" and resolves to the canonical duo label. -/
theorem normalize_director_coen_aliases_witness :
    (∃ kv ∈ collaborations, pyContains (pyLower (pyStrip " I Fratelli Coen ")) kv.1 = true)
    ∧ normalize_director_name (some " I Fratelli Coen ") = "Joel & Ethan Coen" :=
  ⟨by decide, normalize_director_coen_aliases " I Fratelli Coen " (by decide)⟩

/-- C10: in bulk-import preparation, a missing (NaN) Director or Tag Diario
cell becomes the literal text "nan" in the prepared row — not an empty
string and not a missing value — because `astype(str)` runs before the
`fillna('')`. -/
theorem prepare_rows_missing_text_becomes_nan (raw : RawRow)
    (hd : raw.director = none) (ht : raw.tagDiario = none) :
    (_prepare_row raw).director = "nan" ∧ (_prepare_row raw).director ≠ ""
    ∧ (_prepare_row raw).tagDiario = "nan" ∧ (_prepare_row raw).tagDiario ≠ "" := by
  have h1 : (_prepare_row raw).director = pyStrip (pdAstypeStr raw.director) := rfl
  have h2 : (_prepare_row raw).tagDiario = pyStrip (pdAstypeStr raw.tagDiario) := rfl
  rw [h1, h2, hd, ht]
  refine ⟨by decide, by decide, by decide, by decide⟩

/-- C10 witness: the concrete uploaded row with missing Director and
Tag Diario cells is prepared with both fields equal to "nan". -/
theorem prepare_rows_missing_text_becomes_nan_witness :
    rawMissingCells.director = none ∧ rawMissingCells.tagDiario = none
    ∧ (_prepare_row rawMissingCells).director = "nan"
    ∧ (_prepare_row rawMissingCells).tagDiario = "nan" :=
  have h := prepare_rows_missing_text_becomes_nan rawMissingCells rfl rfl
  ⟨rfl, rfl, h.1, h.2.2.1⟩
